import Mathlib

/-!
Shallow embedding of the edge decision logic of the `amazon-ivs-dvr-web-demo`
repository and proofs about its specified behavior.

The two Lambda@Edge handlers are translated from
`src/cdk/lambdas/modifyRenditionPlaylist.ts` (the Playlist Freshness Resolver)
and `src/cdk/lambdas/getLatestRecordingStartMeta.ts` (the Recording Metadata
Resolver).  External collaborators (`getS3Object`, `getActiveStream`,
`JSON.parse` of the recording descriptor) are passed in as environment
functions; JavaScript timestamps are integers counting milliseconds.
-/

/-! ## JavaScript string primitives used by the handlers -/

/-- JS `String.prototype.replace` with a *string* pattern replaces only the
first (leftmost) occurrence of the pattern; this is the list-level worker. -/
def replaceFirstList (pat repl : List Char) : List Char → List Char
  | [] => []
  | c :: t =>
    if pat.isPrefixOf (c :: t) then repl ++ (c :: t).drop pat.length
    else c :: replaceFirstList pat repl t

/-- Whether `pat` occurs as a contiguous subsequence of the list. -/
def hasSubSeq (pat : List Char) : List Char → Bool
  | [] => pat.isEmpty
  | c :: t => pat.isPrefixOf (c :: t) || hasSubSeq pat t

/-- Whether the text still contains the HLS end-of-list marker. -/
def hasEndlistMarker (s : String) : Bool :=
  hasSubSeq "#EXT-X-ENDLIST".data s.data

/-- JS `String.prototype.trim`: drop whitespace (spaces, tabs, line
terminators) from both ends of the string. -/
def jsTrim (s : String) : String :=
  String.mk
    (((s.data.dropWhile Char.isWhitespace).reverse.dropWhile
        Char.isWhitespace).reverse)

/-! ## Data model shared by both handlers -/

/-- One active stream as reported by the IVS `getStream` query
(`@aws-sdk/client-ivs` `Stream` shape, the fields the handlers read). -/
structure IVSStream where
  playbackUrl : String
  state : String
  streamId : String
  deriving DecidableEq

/-- `StreamState.StreamLive` of `@aws-sdk/client-ivs`: the enumerated state
value meaning "currently streaming". -/
def StreamState.StreamLive : String := "LIVE"

/-- `channelState === StreamState.StreamLive`, where `channelState` is
destructured from `(await getActiveStream(arn)) || {}` (so it is `undefined`
when no active stream exists).  Both lambdas compute liveness by this same
expression. -/
def isChannelLiveOf (activeStream : Option IVSStream) : Bool :=
  (activeStream.map IVSStream.state) == some StreamState.StreamLive

/-- Result of `getS3Object(key, bucketName)`: the object body and its
`LastModified` time (in epoch milliseconds, as `Date.prototype.getTime`
returns), which S3 may omit. -/
structure S3ObjectResult where
  body : String
  LastModified : Option Int
  deriving DecidableEq

/-- Errors that can escape an awaited external call inside the handler `try` blocks: an S3 storage error carrying its `Code` string, or any other
failure (liveness query failure, JSON parse failure, ...). -/
inductive ReqError where
  | s3 (Code : String)
  | other
  deriving DecidableEq

/-- Modelled from the spec: `isS3Error` lives in `lambdas/utils`, which is
absent from the provided sources.  Per spec section 7 the handler classifies a
storage error by `isS3Error(error) && error.Code === "NoSuchKey"`; on the
embedded error type this is the following predicate. -/
def isNoSuchKeyError : ReqError → Bool
  | ReqError.s3 code => code == "NoSuchKey"
  | ReqError.other => false

/-- Arguments object passed to `createResponse(statusCode, {...})`. -/
structure ResponseOpts where
  body : Option String
  contentType : Option String
  maxAge : Int
  deriving DecidableEq

/-- The response a handler returns to CloudFront: status code plus the body
and the `Cache-Control: max-age` directive. -/
structure Response where
  status : Nat
  body : Option String
  contentType : Option String
  maxAge : Int
  deriving DecidableEq

/-- Modelled from the spec: `createResponse` lives in `lambdas/utils`, which is
absent from the provided sources.  Per the response contract of spec section 6
it packages the status code, body text, content type and max-age cache
directive into the returned response. -/
def createResponse (status : Nat) (opts : ResponseOpts) : Response :=
  { status := status
    body := opts.body
    contentType := opts.contentType
    maxAge := opts.maxAge }

/-- A JS runtime error thrown outside any `try` block (e.g. reading `[0]` of
an `undefined` custom-header entry); it escapes the handler uncaught. -/
inductive JSError where
  | typeError
  deriving DecidableEq

/-- The slice of a CloudFront Origin Request event the handlers read:
`request.uri`, `request.origin.s3.path`, and the custom headers of the origin
(`name ↦ customHeaders[name][0].value`, `none` when the header is absent). -/
structure CloudFrontRequest where
  uri : String
  s3Path : String
  customHeaders : String → Option String

/-- `customHeaders[name][0].value || ""`: reading a configured header.  When
the header is absent, `customHeaders[name]` is `undefined` and indexing it
throws a `TypeError` (this read happens before the handler `try` blocks). -/
def headerValue (request : CloudFrontRequest) (name : String) :
    Except JSError String :=
  match request.customHeaders name with
  | some v => Except.ok v
  | none => Except.error JSError.typeError

/-! ## modifyRenditionPlaylist.ts -/

def WRITE_LATENCY_BUFFER : Int := 2000

def PLAYLIST_UPDATE_DELAY : Int := 30000

def TOTAL_PLAYLIST_UPDATE_DELAY : Int :=
  PLAYLIST_UPDATE_DELAY + WRITE_LATENCY_BUFFER

/-- `playlist.replace("#EXT-X-ENDLIST", "").trim()`: remove the first
occurrence of the end-of-list marker, then trim surrounding whitespace. -/
def removeEndlist (playlist : String) : String :=
  jsTrim (String.mk (replaceFirstList "#EXT-X-ENDLIST".data [] playlist.data))

/-- Environment of the playlist handler: `Date.now()` and the two awaited
external calls of `lambdas/utils`. -/
structure PlaylistEnv where
  now : Int
  getS3Object : String → String → Except ReqError S3ObjectResult
  getActiveStream : String → Except ReqError (Option IVSStream)

/-- `channelArn.split("/")[1]`: the channel id segment of an ARN (undefined
when the ARN has no `/`). -/
def channelIdOf (channelArn : String) : Option String :=
  (channelArn.splitOn "/")[1]?

/-- `splitPath.includes(channelId)`: `Array.prototype.includes` on an array of
strings is `false` when `channelId` is `undefined`. -/
def includesChannelId (splitPath : List String) (channelId : Option String) :
    Bool :=
  match channelId with
  | some cid => splitPath.contains cid
  | none => false

/-- The body of the `try` block of the handler up to the final
`createResponse(200, { body, maxAge })`: fetch the playlist, classify its age
and produce the `(body, maxAge)` pair.  Any error of an awaited call aborts
the block. -/
def modifyRenditionPlaylistCore (env : PlaylistEnv)
    (key bucketName channelArn : String) : Except ReqError Response := do
  let obj ← env.getS3Object key bucketName
  let LastModifiedTime := obj.LastModified.getD 0
  let timeSinceLastModified := env.now - LastModifiedTime
  let bodyAndMaxAge ←
    if timeSinceLastModified < TOTAL_PLAYLIST_UPDATE_DELAY then
      let timeUntilNextUpdate := max 0 (PLAYLIST_UPDATE_DELAY - timeSinceLastModified)
      pure (removeEndlist obj.body, Int.fdiv timeUntilNextUpdate 1000)
    else do
      let activeStream ← env.getActiveStream channelArn
      let isChannelLive := isChannelLiveOf activeStream
      if isChannelLive then
        pure (removeEndlist obj.body, (0 : Int))
      else
        pure (obj.body, (31536000 : Int))
  pure (createResponse 200 ⟨some bodyAndMaxAge.1, none, bodyAndMaxAge.2⟩)

/-- The `try`/`catch` of the handler: any error raised inside the block is caught
and converted to `createResponse(500, { maxAge: 0 })`. -/
def modifyRenditionPlaylistTry (env : PlaylistEnv)
    (key bucketName channelArn : String) : Response :=
  match modifyRenditionPlaylistCore env key bucketName channelArn with
  | Except.ok r => r
  | Except.error _ => createResponse 500 ⟨none, none, 0⟩

/-- `modifyRenditionPlaylist`: read the per-request configuration headers
(outside any `try` block), select the channel ARN whose id occurs in the
origin path, then run the protected fetch-and-classify block. -/
def modifyRenditionPlaylist (env : PlaylistEnv)
    (request : CloudFrontRequest) : Except JSError Response := do
  let overviewChannelArn ← headerValue request "overview-channel-arn"
  let screensChannelArn ← headerValue request "screens-channel-arn"
  let captChannelArn ← headerValue request "capt-channel-arn"
  let foChannelArn ← headerValue request "fo-channel-arn"
  let bucketName ← headerValue request "vod-record-bucket-name"
  let key := request.uri.drop 1
  let splitPath := request.s3Path.splitOn "/"
  let channelArn :=
    if includesChannelId splitPath (channelIdOf overviewChannelArn) then
      overviewChannelArn
    else if includesChannelId splitPath (channelIdOf screensChannelArn) then
      screensChannelArn
    else if includesChannelId splitPath (channelIdOf captChannelArn) then
      captChannelArn
    else if includesChannelId splitPath (channelIdOf foChannelArn) then
      foChannelArn
    else ""
  pure (modifyRenditionPlaylistTry env key bucketName channelArn)

/-! ## getLatestRecordingStartMeta.ts -/

/-- The client-facing source-position enumeration. -/
inductive SourcePosition where
  | Overview
  | Instruments
  | Captain
  | FO
  | Unknown
  deriving DecidableEq

/-- The string value each `SourcePosition` member carries. -/
def SourcePosition.value : SourcePosition → String
  | SourcePosition.Overview => "OVERVIEW"
  | SourcePosition.Instruments => "INSTRUMENTS"
  | SourcePosition.Captain => "CAPTAIN"
  | SourcePosition.FO => "FO"
  | SourcePosition.Unknown => "UNKNOWN"

/-- A JS number as far as the handler produces one: `parseInt` may yield
`NaN`. -/
inductive JSNumber where
  | nan
  | int (n : Int)
  deriving DecidableEq

/-- One entry of the `media.hls.renditions` array of the descriptor. -/
structure Rendition where
  path : String
  playlist : String
  deriving DecidableEq

/-- The `media.hls` object of the recording descriptor. -/
structure HLSInfo where
  path : String
  playlist : String
  renditions : List Rendition
  deriving DecidableEq

/-- The `media` object of the recording descriptor. -/
structure MediaInfo where
  hls : HLSInfo
  deriving DecidableEq

/-- The parsed `recording-started-latest.json` descriptor, restricted to the
fields the handler destructures. -/
structure Descriptor where
  media : MediaInfo
  recording_started_at : String
  streamId : String
  channelId : String
  channel_arn : String
  deriving DecidableEq

/-- The `RecordingStartedMetadata` response payload.  `livePlaybackUrl` is
always assigned by the object literal; `masterKey`, `recordingStartedAt` and
`playlistDuration` start absent and are attached by later statements. -/
structure RecordingStartedMetadata where
  isChannelLive : Bool
  livePlaybackUrl : String
  masterKey : Option String
  recordingStartedAt : Option String
  playlistDuration : Option JSNumber
  channelId : String
  sourcePosition : SourcePosition
  deriving DecidableEq

/-- Environment of the metadata handler: the awaited external calls plus
`JSON.parse` with the destructuring of the descriptor fields (a parse or
destructuring failure surfaces as a generic error of the `try` block). -/
structure MetaEnv where
  getS3Object : String → String → Except ReqError S3ObjectResult
  getActiveStream : String → Except ReqError (Option IVSStream)
  jsonParse : String → Except ReqError Descriptor

/-- A JS regex-match terminator character: `.` refuses and `$` (multiline)
matches before a line feed or carriage return. -/
def isLineTerm (c : Char) : Bool := c == '\n' || c == '\r'

/-- `textBody.match(/EXT-X-TWITCH-TOTAL-SECS:(.+)$/m)?.[1]`: scan for the
leftmost position where the marker is followed by at least one
non-line-terminator character, and capture the rest of that line. -/
def matchTotalSecsAux (needle : List Char) : List Char → Option String
  | [] => none
  | c :: t =>
    if needle.isPrefixOf (c :: t)
        && !((c :: t).drop needle.length |>.takeWhile (fun ch => !isLineTerm ch)).isEmpty then
      some (String.mk ((c :: t).drop needle.length |>.takeWhile (fun ch => !isLineTerm ch)))
    else matchTotalSecsAux needle t

/-- First capture of the duration marker in the rendition playlist body. -/
def matchTotalSecs (textBody : String) : Option String :=
  matchTotalSecsAux "EXT-X-TWITCH-TOTAL-SECS:".data textBody.data

/-- Digits-to-number accumulator for `jsParseInt`. -/
def digitsToNat (digits : List Char) : Nat :=
  digits.foldl (fun acc c => acc * 10 + (c.toNat - '0'.toNat)) 0

/-- JS `parseInt(string)`: skip leading whitespace, read an optional sign,
then the leading run of decimal digits; `NaN` when no digit is found.  (The
hexadecimal `0x` form `parseInt` also accepts is not modelled; the captured
marker values are decimal.) -/
def jsParseInt (s : String) : JSNumber :=
  let l := s.data.dropWhile Char.isWhitespace
  let signAndRest :=
    match l with
    | '-' :: t => ((-1 : Int), t)
    | '+' :: t => ((1 : Int), t)
    | _ => ((1 : Int), l)
  let digits := signAndRest.2.takeWhile Char.isDigit
  if digits.isEmpty then JSNumber.nan
  else JSNumber.int (signAndRest.1 * (digitsToNat digits : Int))

/-- The inner `try` block of the handler: best-effort duration probe.  Take the
first rendition (indexing an empty array gives `undefined`, so reading its
`path` throws), fetch `path/rendition.path/rendition.playlist`, and match the
total-seconds marker.  Every error is swallowed into `none`; `parseInt` is
applied only when the match is truthy. -/
def duraProbe (env : MetaEnv) (d : Descriptor) (bucketName : String) :
    Option JSNumber :=
  let fetched : Except ReqError (Option String) := do
    let highestRendition ←
      match d.media.hls.renditions.head? with
      | some r => Except.ok r
      | none => Except.error ReqError.other
    let renditionKey :=
      d.media.hls.path ++ "/" ++ highestRendition.path ++ "/" ++
        highestRendition.playlist
    let obj ← env.getS3Object renditionKey bucketName
    Except.ok (matchTotalSecs obj.body)
  match fetched with
  | Except.ok (some m) => some (jsParseInt m)
  | Except.ok none => none
  | Except.error _ => none

/-- The outer `try` block of the handler up to (but excluding) the final
`createResponse`: fetch and parse the descriptor, query liveness, resolve the
source position and assemble the `RecordingStartedMetadata` payload. -/
def getLatestRecordingStartMetaCore (env : MetaEnv)
    (key bucketName overviewChannelArn instrumentsChannelArn captChannelArn
      foChannelArn : String) : Except ReqError RecordingStartedMetadata := do
  let obj ← env.getS3Object key bucketName
  let d ← env.jsonParse obj.body
  let activeStream ← env.getActiveStream d.channel_arn
  let isChannelLive := isChannelLiveOf activeStream
  let sourcePosition :=
    if d.channel_arn == overviewChannelArn then SourcePosition.Overview
    else if d.channel_arn == instrumentsChannelArn then
      SourcePosition.Instruments
    else if d.channel_arn == captChannelArn then SourcePosition.Captain
    else if d.channel_arn == foChannelArn then SourcePosition.FO
    else SourcePosition.Unknown
  let recordingStartedMetadata : RecordingStartedMetadata :=
    { isChannelLive := isChannelLive
      livePlaybackUrl :=
        if isChannelLive then
          (activeStream.map IVSStream.playbackUrl).getD ""
        else ""
      masterKey := none
      recordingStartedAt := none
      playlistDuration := none
      channelId := d.channelId
      sourcePosition := sourcePosition }
  let recordingStartedMetadata :=
    { recordingStartedMetadata with
        masterKey := some (d.media.hls.path ++ "/" ++ d.media.hls.playlist)
        recordingStartedAt := some d.recording_started_at }
  let recordingStartedMetadata :=
    match duraProbe env d bucketName with
    | some n => { recordingStartedMetadata with playlistDuration := some n }
    | none => recordingStartedMetadata
  pure recordingStartedMetadata

/-- Escape one character for the JSON string serialization. -/
def jsonEscapeChar (c : Char) : String :=
  if c == '"' then "\\\""
  else if c == '\\' then "\\\\"
  else if c == '\n' then "\\n"
  else if c == '\r' then "\\r"
  else if c == '\t' then "\\t"
  else String.singleton c

/-- A JSON string literal (the further control-character escapes
`JSON.stringify` performs do not arise in the payloads considered here). -/
def jsonString (s : String) : String :=
  "\"" ++ String.join (s.data.map jsonEscapeChar) ++ "\""

/-- `JSON.stringify(recordingStartedMetadata)`: keys in property insertion
order; absent optional properties are omitted; `NaN` serializes as `null`. -/
def stringifyMetadata (m : RecordingStartedMetadata) : String :=
  "\x7b\"isChannelLive\":" ++ (if m.isChannelLive then "true" else "false")
    ++ ",\"livePlaybackUrl\":" ++ jsonString m.livePlaybackUrl
    ++ ",\"channelId\":" ++ jsonString m.channelId
    ++ ",\"sourcePosition\":" ++ jsonString m.sourcePosition.value
    ++ (match m.masterKey with
        | some s => ",\"masterKey\":" ++ jsonString s
        | none => "")
    ++ (match m.recordingStartedAt with
        | some s => ",\"recordingStartedAt\":" ++ jsonString s
        | none => "")
    ++ (match m.playlistDuration with
        | some (JSNumber.int n) => ",\"playlistDuration\":" ++ toString n
        | some JSNumber.nan => ",\"playlistDuration\":null"
        | none => "")
    ++ "\x7d"

/-- The `try`/`catch` of the handler: a successful payload is serialized into a
200 response with max-age 1; a `NoSuchKey` storage error yields
`createResponse(200, { maxAge: 1, body: JSON.stringify(null) })`; every other
error yields `createResponse(500, { maxAge: 1 })`. -/
def getLatestRecordingStartMetaTry (env : MetaEnv)
    (key bucketName overviewChannelArn instrumentsChannelArn captChannelArn
      foChannelArn : String) : Response :=
  match getLatestRecordingStartMetaCore env key bucketName overviewChannelArn
      instrumentsChannelArn captChannelArn foChannelArn with
  | Except.ok recordingStartedMetadata =>
      createResponse 200
        ⟨some (stringifyMetadata recordingStartedMetadata),
          some "application/json", 1⟩
  | Except.error e =>
      if isNoSuchKeyError e then
        createResponse 200 ⟨some "null", none, 1⟩
      else
        createResponse 500 ⟨none, none, 1⟩

/-- `getLatestRecordingStartMeta`: read the configuration headers (outside
the `try` block), then run the protected descriptor-to-response block. -/
def getLatestRecordingStartMeta (env : MetaEnv)
    (request : CloudFrontRequest) : Except JSError Response := do
  let overviewChannelArn ← headerValue request "overview-channel-arn"
  let instrumentsChannelArn ← headerValue request "instruments-channel-arn"
  let captChannelArn ← headerValue request "capt-channel-arn"
  let foChannelArn ← headerValue request "fo-channel-arn"
  let bucketName ← headerValue request "vod-record-bucket-name"
  let key := request.uri.drop 1
  pure (getLatestRecordingStartMetaTry env key bucketName overviewChannelArn
    instrumentsChannelArn captChannelArn foChannelArn)

/-! ## Concrete runs used by witnesses and counterexamples -/

/-- Concrete run for C1: the playlist was modified exactly now (age 0) and its
body carries two end-of-list markers. -/
def envC1 : PlaylistEnv :=
  { now := 1000000
    getS3Object := fun _ _ =>
      Except.ok
        { body := "#EXT-X-ENDLIST\n#EXT-X-ENDLIST"
          LastModified := some 1000000 }
    getActiveStream := fun _ => Except.ok none }

/-- Concrete run for C2: the playlist is 40s old and the channel offline. -/
def envC2 : PlaylistEnv :=
  { now := 1000000
    getS3Object := fun _ _ =>
      Except.ok
        { body := "#EXTM3U\n#EXT-X-ENDLIST\n", LastModified := some 960000 }
    getActiveStream := fun _ => Except.ok none }

/-- Concrete run for C3: a 100s-old playlist carrying two end-of-list
markers, with the channel live. -/
def envC3 : PlaylistEnv :=
  { now := 1000000
    getS3Object := fun _ _ =>
      Except.ok
        { body := "#EXT-X-ENDLIST\n#EXT-X-ENDLIST"
          LastModified := some 900000 }
    getActiveStream := fun _ =>
      Except.ok
        (some { playbackUrl := "https://live", state := "LIVE"
                streamId := "st-1" }) }

/-- Concrete run for C4: `LastModified` lies 5s in the future of `now`
(age = -5000ms). -/
def envC4 : PlaylistEnv :=
  { now := 1000000
    getS3Object := fun _ _ =>
      Except.ok
        { body := "#EXTM3U\n#EXT-X-ENDLIST\n", LastModified := some 1005000 }
    getActiveStream := fun _ => Except.ok none }

/-- The identical playlist observed at age 0. -/
def envC4zero : PlaylistEnv :=
  { envC4 with now := 1005000 }

/-- Concrete run for C9: the object fetch fails with an unclassified error
(also used as the environment of the counterexample request). -/
def envC9 : PlaylistEnv :=
  { now := 0
    getS3Object := fun _ _ => Except.error ReqError.other
    getActiveStream := fun _ => Except.ok none }

/-- The request the deployed stack actually configures
(`vod-rendition-playlist-stack.ts` lines 223-232): the custom headers of the origin carry `instruments-channel-arn` but no `screens-channel-arn`, which
the playlist handler reads. -/
def requestC9 : CloudFrontRequest :=
  { uri := "/vod/playlist.m3u8"
    s3Path := "/path"
    customHeaders := fun name =>
      if name == "overview-channel-arn" then some "arn:ch/ov"
      else if name == "instruments-channel-arn" then some "arn:ch/ins"
      else if name == "capt-channel-arn" then some "arn:ch/capt"
      else if name == "fo-channel-arn" then some "arn:ch/fo"
      else if name == "vod-record-bucket-name" then some "bucket"
      else none }

/-- Concrete run for C10: an object without `LastModified`, 32s after the
epoch, channel offline. -/
def envC10 : PlaylistEnv :=
  { now := 32000
    getS3Object := fun _ _ =>
      Except.ok { body := "#EXTM3U\n#EXT-X-ENDLIST\n", LastModified := none }
    getActiveStream := fun _ => Except.ok none }

/-- Concrete run for C5: the descriptor object is not there yet. -/
def envC5 : MetaEnv :=
  { getS3Object := fun _ _ => Except.error (ReqError.s3 "NoSuchKey")
    getActiveStream := fun _ => Except.ok none
    jsonParse := fun _ => Except.error ReqError.other }

/-- The raw descriptor body used by the concrete metadata runs; it contains
no `EXT-X-TWITCH-TOTAL-SECS:` marker. -/
def descriptorBody : String := "descriptor-json-without-total-secs"

/-- The parsed descriptor used by the concrete metadata runs. -/
def descriptorC : Descriptor :=
  { media :=
      { hls :=
          { path := "ivs/v1/acct/chid/2023/2/13/16/19/sess/media/hls"
            playlist := "master.m3u8"
            renditions := [{ path := "720p30", playlist := "playlist.m3u8" }] } }
    recording_started_at := "2023-02-13T16:19:30Z"
    streamId := "st-recorded"
    channelId := "chid"
    channel_arn := "arn:ch/ov" }

/-- Concrete metadata environment whose duration probe always fails: every
object fetch returns `descriptorBody`, which parses as `descriptorC` but
carries no total-seconds marker. -/
def envC6a : MetaEnv :=
  { getS3Object := fun _ _ =>
      Except.ok { body := descriptorBody, LastModified := none }
    getActiveStream := fun _ => Except.ok none
    jsonParse := fun s =>
      if s == descriptorBody then Except.ok descriptorC
      else Except.error ReqError.other }

/-- Same environment except that fetching any key other than the descriptor
key succeeds with a playlist body carrying a total-seconds marker, so the
duration probe succeeds. -/
def envC6b : MetaEnv :=
  { envC6a with
      getS3Object := fun key _ =>
        if key == "recording-started-latest.json" then
          Except.ok { body := descriptorBody, LastModified := none }
        else
          Except.ok { body := "EXT-X-TWITCH-TOTAL-SECS:300\n"
                      LastModified := none } }

/-- The live stream reported in the concrete C7/C8 runs; its stream id
differs from the recorded one in `descriptorC`. -/
def streamC7 : IVSStream :=
  { playbackUrl := "https://live.example/m3u8"
    state := "LIVE"
    streamId := "st-active" }

/-- Concrete metadata environment with a live channel. -/
def envC7 : MetaEnv :=
  { getS3Object := fun _ _ =>
      Except.ok { body := descriptorBody, LastModified := none }
    getActiveStream := fun _ => Except.ok (some streamC7)
    jsonParse := fun s =>
      if s == descriptorBody then Except.ok descriptorC
      else Except.error ReqError.other }

/-- The payload `envC7` produces for `descriptorC`. -/
def metadataC7 : RecordingStartedMetadata :=
  { isChannelLive := true
    livePlaybackUrl := "https://live.example/m3u8"
    masterKey :=
      some "ivs/v1/acct/chid/2023/2/13/16/19/sess/media/hls/master.m3u8"
    recordingStartedAt := some "2023-02-13T16:19:30Z"
    playlistDuration := none
    channelId := "chid"
    sourcePosition := SourcePosition.Overview }

/-! ## Branch lemmas for the playlist handler -/

/-- Fresh branch: when the fetch succeeds and the age is below the 32s
window, the marker-stripped body is returned with
`maxAge = floor(max(0, 30000 - age) / 1000)`. -/
theorem modifyTry_fresh (env : PlaylistEnv) (key bucketName channelArn : String)
    (obj : S3ObjectResult)
    (hfetch : env.getS3Object key bucketName = Except.ok obj)
    (hfresh : env.now - obj.LastModified.getD 0 < TOTAL_PLAYLIST_UPDATE_DELAY) :
    modifyRenditionPlaylistTry env key bucketName channelArn =
      createResponse 200 ⟨some (removeEndlist obj.body), none,
        Int.fdiv
          (max 0 (PLAYLIST_UPDATE_DELAY - (env.now - obj.LastModified.getD 0)))
          1000⟩ := by
  simp [modifyRenditionPlaylistTry, modifyRenditionPlaylistCore, hfetch,
    hfresh, Bind.bind, Except.bind, Except.instMonad, Pure.pure, Except.pure]

/-- Stale branch: when the fetch succeeds and the age reaches the 32s window,
the result is decided by the liveness query. -/
theorem modifyTry_stale (env : PlaylistEnv) (key bucketName channelArn : String)
    (obj : S3ObjectResult)
    (hfetch : env.getS3Object key bucketName = Except.ok obj)
    (hstale : TOTAL_PLAYLIST_UPDATE_DELAY ≤ env.now - obj.LastModified.getD 0) :
    modifyRenditionPlaylistTry env key bucketName channelArn =
      match env.getActiveStream channelArn with
      | Except.ok activeStream =>
          if isChannelLiveOf activeStream then
            createResponse 200 ⟨some (removeEndlist obj.body), none, 0⟩
          else
            createResponse 200 ⟨some obj.body, none, 31536000⟩
      | Except.error _ => createResponse 500 ⟨none, none, 0⟩ := by
  have hnot : ¬ (env.now - obj.LastModified.getD 0 <
      TOTAL_PLAYLIST_UPDATE_DELAY) := not_lt.mpr hstale
  cases hls : env.getActiveStream channelArn with
  | ok activeStream =>
      by_cases hlive : isChannelLiveOf activeStream = true <;>
        simp [modifyRenditionPlaylistTry, modifyRenditionPlaylistCore, hfetch,
          hnot, hls, hlive, Bind.bind, Except.bind, Except.instMonad,
          Pure.pure, Except.pure]
  | error e =>
      simp [modifyRenditionPlaylistTry, modifyRenditionPlaylistCore, hfetch,
        hnot, hls, Bind.bind, Except.bind, Except.instMonad, Pure.pure,
        Except.pure]

/-! ## C1 -/

/-- C1 fails as stated: at age 0 (which satisfies `0 ≤ age < 32s`) the
resolver answers `maxAgeSeconds = 30`, outside the claimed range `[0, 30)`,
and since `String.replace` with a string pattern replaces only the first
occurrence, the returned body still contains an `#EXT-X-ENDLIST` marker. -/
theorem c1_counterexample :
    modifyRenditionPlaylistTry envC1 "key" "bucket" "arn" =
        createResponse 200 ⟨some "#EXT-X-ENDLIST", none, 30⟩
      ∧ hasEndlistMarker "#EXT-X-ENDLIST" = true
      ∧ ¬ ((30 : Int) < 30) := by
  refine ⟨by decide, by decide, by decide⟩

/-- C1 (amended): for every playlist object with `0 ≤ age < 32s` the resolver
returns the body with the *first* end-of-list marker occurrence removed and
whitespace trimmed, and `maxAgeSeconds = floor(max(0, 30s - age) / 1s)`, a
value lying in the range `[0, 30]`. -/
theorem c1_fresh_window (env : PlaylistEnv)
    (key bucketName channelArn : String) (obj : S3ObjectResult)
    (hfetch : env.getS3Object key bucketName = Except.ok obj)
    (h0 : 0 ≤ env.now - obj.LastModified.getD 0)
    (h32 : env.now - obj.LastModified.getD 0 < TOTAL_PLAYLIST_UPDATE_DELAY) :
    modifyRenditionPlaylistTry env key bucketName channelArn =
      createResponse 200 ⟨some (removeEndlist obj.body), none,
        Int.fdiv
          (max 0 (PLAYLIST_UPDATE_DELAY - (env.now - obj.LastModified.getD 0)))
          1000⟩
    ∧ 0 ≤ Int.fdiv
        (max 0 (PLAYLIST_UPDATE_DELAY - (env.now - obj.LastModified.getD 0)))
        1000
    ∧ Int.fdiv
        (max 0 (PLAYLIST_UPDATE_DELAY - (env.now - obj.LastModified.getD 0)))
        1000 ≤ 30 := by
  refine ⟨modifyTry_fresh env key bucketName channelArn obj hfetch h32, ?_, ?_⟩
  all_goals
    rw [Int.fdiv_eq_ediv _ (by norm_num : (0 : Int) ≤ 1000)]
    simp only [PLAYLIST_UPDATE_DELAY]
    omega

/-! ## C2 -/

/-- C2: for every playlist object with `age ≥ 32s` whose liveness query
reports the channel not live, the resolver returns the fetched body
byte-identical (end-of-list marker retained) with
`maxAgeSeconds = 31536000`. -/
theorem c2_stale_not_live (env : PlaylistEnv)
    (key bucketName channelArn : String) (obj : S3ObjectResult)
    (activeStream : Option IVSStream)
    (hfetch : env.getS3Object key bucketName = Except.ok obj)
    (hstale : TOTAL_PLAYLIST_UPDATE_DELAY ≤ env.now - obj.LastModified.getD 0)
    (hlive : env.getActiveStream channelArn = Except.ok activeStream)
    (hnot : isChannelLiveOf activeStream = false) :
    modifyRenditionPlaylistTry env key bucketName channelArn =
      createResponse 200 ⟨some obj.body, none, 31536000⟩ := by
  rw [modifyTry_stale env key bucketName channelArn obj hfetch hstale, hlive]
  simp [hnot]

/-- Witness for C2: a 40s-old playlist with no active stream is returned
unmodified with the one-year max-age. -/
theorem c2_witness :
    modifyRenditionPlaylistTry envC2 "key" "bucket" "arn" =
      createResponse 200 ⟨some "#EXTM3U\n#EXT-X-ENDLIST\n", none, 31536000⟩ :=
  c2_stale_not_live envC2 "key" "bucket" "arn"
    { body := "#EXTM3U\n#EXT-X-ENDLIST\n", LastModified := some 960000 }
    none rfl (by decide) rfl (by decide)

/-! ## C3 -/

/-- C3 fails as stated: on a stale playlist of a live channel the resolver
does answer `maxAgeSeconds = 0`, but `String.replace` with a string pattern
removes only the first marker occurrence, so the returned body can still
contain an `#EXT-X-ENDLIST` marker. -/
theorem c3_counterexample :
    modifyRenditionPlaylistTry envC3 "key" "bucket" "arn" =
        createResponse 200 ⟨some "#EXT-X-ENDLIST", none, 0⟩
      ∧ hasEndlistMarker "#EXT-X-ENDLIST" = true := by
  refine ⟨by decide, by decide⟩

/-- C3 (amended): for every playlist object with `age ≥ 32s` whose liveness
query reports the channel live, the resolver returns the body with the
*first* end-of-list marker occurrence removed and whitespace trimmed, and
`maxAgeSeconds = 0`. -/
theorem c3_stale_live (env : PlaylistEnv)
    (key bucketName channelArn : String) (obj : S3ObjectResult)
    (activeStream : Option IVSStream)
    (hfetch : env.getS3Object key bucketName = Except.ok obj)
    (hstale : TOTAL_PLAYLIST_UPDATE_DELAY ≤ env.now - obj.LastModified.getD 0)
    (hlive : env.getActiveStream channelArn = Except.ok activeStream)
    (hison : isChannelLiveOf activeStream = true) :
    modifyRenditionPlaylistTry env key bucketName channelArn =
      createResponse 200 ⟨some (removeEndlist obj.body), none, 0⟩ := by
  rw [modifyTry_stale env key bucketName channelArn obj hfetch hstale, hlive]
  simp [hison]

/-- Witness for the amended C3 at the concrete stale live run. -/
theorem c3_witness :
    modifyRenditionPlaylistTry envC3 "key" "bucket" "arn" =
      createResponse 200
        ⟨some (removeEndlist "#EXT-X-ENDLIST\n#EXT-X-ENDLIST"), none, 0⟩ :=
  c3_stale_live envC3 "key" "bucket" "arn"
    { body := "#EXT-X-ENDLIST\n#EXT-X-ENDLIST", LastModified := some 900000 }
    (some { playbackUrl := "https://live", state := "LIVE", streamId := "st-1" })
    rfl (by decide) rfl (by decide)

/-! ## C4 -/

/-- C4 fails as stated: a negative age does fall into the fresh branch, but
`Math.max(0, ...)` clamps the *remaining time*, not the age, so at age -5s
the resolver answers `maxAgeSeconds = 35` while the identical playlist at
age 0 gets `maxAgeSeconds = 30` — not the same cache directive. -/
theorem c4_counterexample :
    (modifyRenditionPlaylistTry envC4 "key" "bucket" "arn").maxAge = 35
      ∧ (modifyRenditionPlaylistTry envC4zero "key" "bucket" "arn").maxAge = 30
      ∧ modifyRenditionPlaylistTry envC4 "key" "bucket" "arn" ≠
          modifyRenditionPlaylistTry envC4zero "key" "bucket" "arn" := by
  refine ⟨by decide, by decide, by decide⟩

/-- C4 (amended): a playlist object with negative age falls into the fresh
branch and yields the same body as it would at age 0 (the first marker
occurrence removed, trimmed), but `maxAgeSeconds =
floor((30s - age) / 1s) ≥ 30` — the age is not clamped to 0, so the
max-age exceeds the age-0 value whenever `age ≤ -1s`. -/
theorem c4_negative_age (env : PlaylistEnv)
    (key bucketName channelArn : String) (obj : S3ObjectResult)
    (hfetch : env.getS3Object key bucketName = Except.ok obj)
    (hneg : env.now - obj.LastModified.getD 0 < 0) :
    modifyRenditionPlaylistTry env key bucketName channelArn =
      createResponse 200 ⟨some (removeEndlist obj.body), none,
        Int.fdiv
          (PLAYLIST_UPDATE_DELAY - (env.now - obj.LastModified.getD 0)) 1000⟩
    ∧ 30 ≤ Int.fdiv
        (PLAYLIST_UPDATE_DELAY - (env.now - obj.LastModified.getD 0)) 1000
    ∧ ∀ envZero : PlaylistEnv,
        envZero.getS3Object key bucketName = Except.ok obj →
        envZero.now - obj.LastModified.getD 0 = 0 →
        (modifyRenditionPlaylistTry envZero key bucketName channelArn).body =
          (modifyRenditionPlaylistTry env key bucketName channelArn).body := by
  have hfresh : env.now - obj.LastModified.getD 0 <
      TOTAL_PLAYLIST_UPDATE_DELAY := by
    simp only [TOTAL_PLAYLIST_UPDATE_DELAY, PLAYLIST_UPDATE_DELAY,
      WRITE_LATENCY_BUFFER]
    omega
  have hmax : max 0
      (PLAYLIST_UPDATE_DELAY - (env.now - obj.LastModified.getD 0)) =
      PLAYLIST_UPDATE_DELAY - (env.now - obj.LastModified.getD 0) := by
    simp only [PLAYLIST_UPDATE_DELAY]
    omega
  refine ⟨?_, ?_, ?_⟩
  · rw [modifyTry_fresh env key bucketName channelArn obj hfetch hfresh, hmax]
  · rw [Int.fdiv_eq_ediv _ (by norm_num : (0 : Int) ≤ 1000)]
    simp only [PLAYLIST_UPDATE_DELAY]
    omega
  · intro envZero hfetchZero hageZero
    have hfreshZero : envZero.now - obj.LastModified.getD 0 <
        TOTAL_PLAYLIST_UPDATE_DELAY := by
      rw [hageZero]
      decide
    rw [modifyTry_fresh env key bucketName channelArn obj hfetch hfresh,
      modifyTry_fresh envZero key bucketName channelArn obj hfetchZero
        hfreshZero]
    rfl

/-- Witness for the amended C4 at the concrete age -5s run. -/
theorem c4_witness :
    modifyRenditionPlaylistTry envC4 "key" "bucket" "arn" =
      createResponse 200
        ⟨some (removeEndlist "#EXTM3U\n#EXT-X-ENDLIST\n"), none,
          Int.fdiv (PLAYLIST_UPDATE_DELAY - (envC4.now -
            (Option.getD (some 1005000) 0))) 1000⟩ :=
  (c4_negative_age envC4 "key" "bucket" "arn"
    { body := "#EXTM3U\n#EXT-X-ENDLIST\n", LastModified := some 1005000 }
    rfl (by decide)).1

/-! ## C9 -/

/-- C9 fails as stated: the configuration headers are read *before* the
`try` block (lines 37-48 versus the `try` at line 83), so an error raised
while reading them — here the absent `screens-channel-arn` header, exactly
the situation the origin configuration of the stack produces — escapes the
handler uncaught instead of becoming a 500/max-age-0 response. -/
theorem c9_counterexample :
    modifyRenditionPlaylist envC9 requestC9 = Except.error JSError.typeError
      ∧ modifyRenditionPlaylist envC9 requestC9 ≠
          Except.ok (createResponse 500 ⟨none, none, 0⟩) := by
  have h : modifyRenditionPlaylist envC9 requestC9 =
      Except.error JSError.typeError := rfl
  refine ⟨h, ?_⟩
  rw [h]
  intro hcontra
  exact Except.noConfusion hcontra

/-- C9 (amended): every unclassified failure raised *inside* the protected
fetch-and-classify block — an object fetch error, or a liveness query error
on the stale path — yields status 500 with max-age 0; errors while reading
the per-request configuration headers occur before the `try`/`catch` and
propagate uncaught. -/
theorem c9_unclassified_failure (env : PlaylistEnv)
    (key bucketName channelArn : String) :
    (∀ e : ReqError, env.getS3Object key bucketName = Except.error e →
        modifyRenditionPlaylistTry env key bucketName channelArn =
          createResponse 500 ⟨none, none, 0⟩)
    ∧ (∀ (obj : S3ObjectResult) (e : ReqError),
        env.getS3Object key bucketName = Except.ok obj →
        TOTAL_PLAYLIST_UPDATE_DELAY ≤ env.now - obj.LastModified.getD 0 →
        env.getActiveStream channelArn = Except.error e →
        modifyRenditionPlaylistTry env key bucketName channelArn =
          createResponse 500 ⟨none, none, 0⟩) := by
  constructor
  · intro e hfetch
    simp [modifyRenditionPlaylistTry, modifyRenditionPlaylistCore, hfetch,
      Bind.bind, Except.bind, Except.instMonad]
  · intro obj e hfetch hstale hlive
    rw [modifyTry_stale env key bucketName channelArn obj hfetch hstale,
      hlive]

/-- Witness for the amended C9: a failing object fetch yields the
500/max-age-0 response. -/
theorem c9_witness :
    modifyRenditionPlaylistTry envC9 "key" "bucket" "arn" =
      createResponse 500 ⟨none, none, 0⟩ :=
  (c9_unclassified_failure envC9 "key" "bucket" "arn").1 ReqError.other rfl

/-! ## C10 -/

/-- C10: when the fetched playlist object carries no last-modified
timestamp, epoch time 0 is substituted, so whenever `now ≥ 32s` the playlist
is classified stale and the outcome is decided entirely by the liveness
branch. -/
theorem c10_epoch_fallback (env : PlaylistEnv)
    (key bucketName channelArn : String) (obj : S3ObjectResult)
    (hfetch : env.getS3Object key bucketName = Except.ok obj)
    (hnolm : obj.LastModified = none)
    (hnow : TOTAL_PLAYLIST_UPDATE_DELAY ≤ env.now) :
    modifyRenditionPlaylistTry env key bucketName channelArn =
      match env.getActiveStream channelArn with
      | Except.ok activeStream =>
          if isChannelLiveOf activeStream then
            createResponse 200 ⟨some (removeEndlist obj.body), none, 0⟩
          else
            createResponse 200 ⟨some obj.body, none, 31536000⟩
      | Except.error _ => createResponse 500 ⟨none, none, 0⟩ := by
  apply modifyTry_stale env key bucketName channelArn obj hfetch
  rw [hnolm]
  simpa using hnow

/-- Witness for C10 at the concrete run. -/
theorem c10_witness :
    modifyRenditionPlaylistTry envC10 "key" "bucket" "arn" =
      match envC10.getActiveStream "arn" with
      | Except.ok activeStream =>
          if isChannelLiveOf activeStream then
            createResponse 200
              ⟨some (removeEndlist "#EXTM3U\n#EXT-X-ENDLIST\n"), none, 0⟩
          else
            createResponse 200
              ⟨some "#EXTM3U\n#EXT-X-ENDLIST\n", none, 31536000⟩
      | Except.error _ => createResponse 500 ⟨none, none, 0⟩ :=
  c10_epoch_fallback envC10 "key" "bucket" "arn"
    { body := "#EXTM3U\n#EXT-X-ENDLIST\n", LastModified := none }
    rfl rfl (by decide)

/-- Witness for the amended C1 at the concrete age-0 run. -/
theorem c1_witness :
    modifyRenditionPlaylistTry envC1 "key" "bucket" "arn" =
      createResponse 200
        ⟨some (removeEndlist "#EXT-X-ENDLIST\n#EXT-X-ENDLIST"), none,
          Int.fdiv (max 0 (PLAYLIST_UPDATE_DELAY - (envC1.now -
            (Option.getD (some 1000000) 0)))) 1000⟩ :=
  (c1_fresh_window envC1 "key" "bucket" "arn"
    { body := "#EXT-X-ENDLIST\n#EXT-X-ENDLIST", LastModified := some 1000000 }
    rfl (by decide) (by decide)).1

/-! ## Success shape of the metadata core -/

/-- When the descriptor fetch, the parse and the liveness query all succeed,
the metadata core produces exactly this payload. -/
theorem metaCore_ok (env : MetaEnv)
    (key bucketName overviewChannelArn instrumentsChannelArn captChannelArn
      foChannelArn : String)
    (obj : S3ObjectResult) (d : Descriptor) (activeStream : Option IVSStream)
    (hfetch : env.getS3Object key bucketName = Except.ok obj)
    (hparse : env.jsonParse obj.body = Except.ok d)
    (hlive : env.getActiveStream d.channel_arn = Except.ok activeStream) :
    getLatestRecordingStartMetaCore env key bucketName overviewChannelArn
        instrumentsChannelArn captChannelArn foChannelArn =
      Except.ok
        { isChannelLive := isChannelLiveOf activeStream
          livePlaybackUrl :=
            if isChannelLiveOf activeStream then
              (activeStream.map IVSStream.playbackUrl).getD ""
            else ""
          masterKey := some (d.media.hls.path ++ "/" ++ d.media.hls.playlist)
          recordingStartedAt := some d.recording_started_at
          playlistDuration := duraProbe env d bucketName
          channelId := d.channelId
          sourcePosition :=
            if d.channel_arn == overviewChannelArn then SourcePosition.Overview
            else if d.channel_arn == instrumentsChannelArn then
              SourcePosition.Instruments
            else if d.channel_arn == captChannelArn then SourcePosition.Captain
            else if d.channel_arn == foChannelArn then SourcePosition.FO
            else SourcePosition.Unknown } := by
  unfold getLatestRecordingStartMetaCore
  rw [hfetch]
  simp only [Bind.bind, Except.bind, Except.instMonad, Pure.pure, Except.pure,
    hparse, hlive]
  cases hpd : duraProbe env d bucketName <;> simp [hpd]

/-! ## C5 -/

/-- C5: when the descriptor fetch fails with the `NoSuchKey` not-found
condition, the metadata handler answers status 200 with body
`JSON.stringify(null) = "null"` and max-age 1 — never 404 or 500. -/
theorem c5_missing_descriptor (env : MetaEnv)
    (key bucketName overviewChannelArn instrumentsChannelArn captChannelArn
      foChannelArn : String)
    (hfetch : env.getS3Object key bucketName =
      Except.error (ReqError.s3 "NoSuchKey")) :
    getLatestRecordingStartMetaTry env key bucketName overviewChannelArn
        instrumentsChannelArn captChannelArn foChannelArn =
      createResponse 200 ⟨some "null", none, 1⟩ := by
  unfold getLatestRecordingStartMetaTry getLatestRecordingStartMetaCore
  rw [hfetch]
  simp [Bind.bind, Except.bind, Except.instMonad, isNoSuchKeyError]

/-- Witness for C5 at the concrete missing-descriptor run. -/
theorem c5_witness :
    getLatestRecordingStartMetaTry envC5 "recording-started-latest.json"
        "bucket" "arn:ch/ov" "arn:ch/ins" "arn:ch/capt" "arn:ch/fo" =
      createResponse 200 ⟨some "null", none, 1⟩ :=
  c5_missing_descriptor envC5 "recording-started-latest.json" "bucket"
    "arn:ch/ov" "arn:ch/ins" "arn:ch/capt" "arn:ch/fo" rfl

/-! ## C6 -/

/-- The duration probe fails on every descriptor under `envC6a`: the fetch of the probe always returns `descriptorBody`, which carries no marker. -/
theorem envC6a_probe_none (d : Descriptor) (bucketName : String) :
    duraProbe envC6a d bucketName = none := by
  unfold duraProbe
  cases hr : d.media.hls.renditions.head? with
  | none =>
      simp [hr, Bind.bind, Except.bind, Except.instMonad]
  | some r =>
      simp only [hr, Bind.bind, Except.bind, Except.instMonad, envC6a]
      have hm : matchTotalSecs descriptorBody = none := by decide
      simp [hm]

/-- C6: when the best-effort duration probe fails for any reason, the
metadata payload is identical to the success case except that the duration
field is absent — `isChannelLive`, `livePlaybackUrl`, `masterKey`,
`recordingStartedAt`, `channelId` and `sourcePosition` are unchanged — and
such a payload is still serialized into a status-200, max-age-1 response. -/
theorem c6_probe_failure_isolated (env₁ env₂ : MetaEnv)
    (key bucketName overviewChannelArn instrumentsChannelArn captChannelArn
      foChannelArn : String)
    (hfetch : env₁.getS3Object key bucketName =
      env₂.getS3Object key bucketName)
    (hparse : env₁.jsonParse = env₂.jsonParse)
    (hlive : env₁.getActiveStream = env₂.getActiveStream)
    (hfail : ∀ d : Descriptor, duraProbe env₁ d bucketName = none) :
    getLatestRecordingStartMetaCore env₁ key bucketName overviewChannelArn
        instrumentsChannelArn captChannelArn foChannelArn =
      (getLatestRecordingStartMetaCore env₂ key bucketName overviewChannelArn
          instrumentsChannelArn captChannelArn foChannelArn).map
        (fun m => { m with playlistDuration := none })
    ∧ ∀ m, getLatestRecordingStartMetaCore env₁ key bucketName
          overviewChannelArn instrumentsChannelArn captChannelArn
          foChannelArn = Except.ok m →
        getLatestRecordingStartMetaTry env₁ key bucketName overviewChannelArn
            instrumentsChannelArn captChannelArn foChannelArn =
          createResponse 200
            ⟨some (stringifyMetadata m), some "application/json", 1⟩ := by
  constructor
  · unfold getLatestRecordingStartMetaCore
    rw [hfetch, hparse, hlive]
    cases h1 : env₂.getS3Object key bucketName with
    | error e => simp [Bind.bind, Except.bind, Except.instMonad, Except.map]
    | ok obj =>
      cases h2 : env₂.jsonParse obj.body with
      | error e =>
          simp [h2, Bind.bind, Except.bind, Except.instMonad, Except.map]
      | ok d =>
        cases h3 : env₂.getActiveStream d.channel_arn with
        | error e =>
            simp [h2, h3, Bind.bind, Except.bind, Except.instMonad,
              Except.map]
        | ok activeStream =>
            simp only [h2, h3, hfail d, Bind.bind, Except.bind,
              Except.instMonad, Pure.pure, Except.pure, Except.map]
            cases hpd : duraProbe env₂ d bucketName <;> simp [hpd]
  · intro m hm
    unfold getLatestRecordingStartMetaTry
    rw [hm]

/-- Witness for C6: under `envC6a` the probe fails and the payload equals the
`envC6b` payload (whose probe succeeds) with the duration erased. -/
theorem c6_witness :
    getLatestRecordingStartMetaCore envC6a "recording-started-latest.json"
        "bucket" "arn:ch/ov" "arn:ch/ins" "arn:ch/capt" "arn:ch/fo" =
      (getLatestRecordingStartMetaCore envC6b "recording-started-latest.json"
          "bucket" "arn:ch/ov" "arn:ch/ins" "arn:ch/capt" "arn:ch/fo").map
        (fun m => { m with playlistDuration := none }) :=
  (c6_probe_failure_isolated envC6a envC6b "recording-started-latest.json"
    "bucket" "arn:ch/ov" "arn:ch/ins" "arn:ch/capt" "arn:ch/fo" rfl rfl rfl
    (fun d => envC6a_probe_none d "bucket")).1

/-! ## C7 -/

/-- C7: the channel counts as live exactly when the liveness query returns an
active stream in the enumerated `StreamLive` state (absence of a stream or
any other state is not live); the metadata payload copies this flag and sets
`livePlaybackUrl` to the reported URL only when live and to `""` otherwise;
and the stale branch of the playlist resolver splits on the same predicate. -/
theorem c7_liveness_definition (env : MetaEnv)
    (key bucketName overviewChannelArn instrumentsChannelArn captChannelArn
      foChannelArn : String)
    (obj : S3ObjectResult) (d : Descriptor) (activeStream : Option IVSStream)
    (hfetch : env.getS3Object key bucketName = Except.ok obj)
    (hparse : env.jsonParse obj.body = Except.ok d)
    (hlive : env.getActiveStream d.channel_arn = Except.ok activeStream) :
    (isChannelLiveOf activeStream = true ↔
      ∃ s, activeStream = some s ∧ s.state = StreamState.StreamLive)
    ∧ (∀ m, getLatestRecordingStartMetaCore env key bucketName
          overviewChannelArn instrumentsChannelArn captChannelArn
          foChannelArn = Except.ok m →
        m.isChannelLive = isChannelLiveOf activeStream
        ∧ (∀ s, activeStream = some s → isChannelLiveOf activeStream = true →
            m.livePlaybackUrl = s.playbackUrl)
        ∧ (isChannelLiveOf activeStream = false → m.livePlaybackUrl = ""))
    ∧ ∀ (penv : PlaylistEnv) (pkey pbucket parn : String)
        (pobj : S3ObjectResult),
        penv.getS3Object pkey pbucket = Except.ok pobj →
        TOTAL_PLAYLIST_UPDATE_DELAY ≤ penv.now - pobj.LastModified.getD 0 →
        penv.getActiveStream parn = Except.ok activeStream →
        modifyRenditionPlaylistTry penv pkey pbucket parn =
          if isChannelLiveOf activeStream then
            createResponse 200 ⟨some (removeEndlist pobj.body), none, 0⟩
          else
            createResponse 200 ⟨some pobj.body, none, 31536000⟩ := by
  refine ⟨?_, ?_, ?_⟩
  · cases activeStream with
    | none => simp [isChannelLiveOf]
    | some s =>
        simp [isChannelLiveOf, beq_iff_eq]
  · intro m hm
    rw [metaCore_ok env key bucketName overviewChannelArn
      instrumentsChannelArn captChannelArn foChannelArn obj d activeStream
      hfetch hparse hlive] at hm
    injection hm with hm
    subst hm
    refine ⟨rfl, ?_, ?_⟩
    · intro s hs hon
      subst hs
      simp [hon]
    · intro hoff
      simp [hoff]
  · intro penv pkey pbucket parn pobj phfetch phstale phlive
    rw [modifyTry_stale penv pkey pbucket parn pobj phfetch phstale, phlive]

/-- Witness for C7: under `envC7` the channel is live and the payload carries
the live playback URL. -/
theorem c7_witness :
    metadataC7.isChannelLive = isChannelLiveOf (some streamC7)
      ∧ metadataC7.livePlaybackUrl = streamC7.playbackUrl := by
  have h := c7_liveness_definition envC7 "recording-started-latest.json"
    "bucket" "arn:ch/ov" "arn:ch/ins" "arn:ch/capt" "arn:ch/fo"
    { body := descriptorBody, LastModified := none } descriptorC
    (some streamC7) rfl rfl rfl
  have hok : getLatestRecordingStartMetaCore envC7
      "recording-started-latest.json" "bucket" "arn:ch/ov" "arn:ch/ins"
      "arn:ch/capt" "arn:ch/fo" = Except.ok metadataC7 := rfl
  have hm := h.2.1 metadataC7 hok
  exact ⟨hm.1, hm.2.1 streamC7 rfl rfl⟩

/-! ## C8 -/

/-- C8: every successfully fetched and parsed descriptor always contributes
`masterKey = masterPath ++ "/" ++ masterPlaylistName` and
`recordingStartedAt` to the payload — no hypothesis relates the recorded
stream id to the active one. -/
theorem c8_always_attach (env : MetaEnv)
    (key bucketName overviewChannelArn instrumentsChannelArn captChannelArn
      foChannelArn : String)
    (obj : S3ObjectResult) (d : Descriptor) (activeStream : Option IVSStream)
    (hfetch : env.getS3Object key bucketName = Except.ok obj)
    (hparse : env.jsonParse obj.body = Except.ok d)
    (hlive : env.getActiveStream d.channel_arn = Except.ok activeStream) :
    ∀ m, getLatestRecordingStartMetaCore env key bucketName
        overviewChannelArn instrumentsChannelArn captChannelArn
        foChannelArn = Except.ok m →
      m.masterKey = some (d.media.hls.path ++ "/" ++ d.media.hls.playlist)
      ∧ m.recordingStartedAt = some d.recording_started_at := by
  intro m hm
  rw [metaCore_ok env key bucketName overviewChannelArn instrumentsChannelArn
    captChannelArn foChannelArn obj d activeStream hfetch hparse hlive] at hm
  injection hm with hm
  subst hm
  exact ⟨rfl, rfl⟩

/-- Witness for C8: under `envC7` the recorded stream id (`st-recorded`)
differs from the active one (`st-active`), yet `masterKey` and
`recordingStartedAt` are attached. -/
theorem c8_witness :
    metadataC7.masterKey =
        some (descriptorC.media.hls.path ++ "/" ++
          descriptorC.media.hls.playlist)
      ∧ metadataC7.recordingStartedAt =
          some descriptorC.recording_started_at :=
  c8_always_attach envC7 "recording-started-latest.json" "bucket"
    "arn:ch/ov" "arn:ch/ins" "arn:ch/capt" "arn:ch/fo"
    { body := descriptorBody, LastModified := none } descriptorC
    (some streamC7) rfl rfl rfl metadataC7 rfl
